import Mathlib

/-!
Verification of the session channel manager of a minimal sshd server
(package `sshd`: `server.go`, `sshd_posix.go`).

The Go code is shallowly embedded: byte strings become `List Nat` (each
entry a byte value `< 256`), Go runtime panics and `log.Fatalf` become an
explicit `GoAbort` error value (both of them terminate the whole server
process: an unrecovered panic in a goroutine kills the Go process, and
`log.Fatalf` calls `os.Exit(1)`), and the per-channel request loop of
`handleChannel` becomes a step function on an explicit session state.
-/

/-- How the Go process aborts: `runtimePanic` is an unrecovered runtime
panic (index out of range, nil pointer dereference, or an explicit
`panic(...)` call); `fatalExit` is `log.Fatalf`, which prints and then
calls `os.Exit(1)`.  Either one terminates the whole server process. -/
inductive GoAbort where
  | runtimePanic
  | fatalExit
deriving DecidableEq

/-- `binary.BigEndian.Uint32 b`: reads the first four bytes of `b` as a
big-endian 32-bit unsigned integer; panics (index out of range) when
`b` has fewer than four bytes, exactly as the Go bounds check does. -/
def beUint32 (b : List Nat) : Except GoAbort Nat :=
  match b with
  | b0 :: b1 :: b2 :: b3 :: _ => .ok (((b0 * 256 + b1) * 256 + b2) * 256 + b3)
  | _ => .error .runtimePanic

/-- Go slicing `b[k:]`: legal for `k ≤ len(b)` (yielding the suffix,
empty when `k = len(b)`), and a runtime panic when `k > len(b)`. -/
def sliceFrom (b : List Nat) (k : Nat) : Except GoAbort (List Nat) :=
  if k ≤ b.length then .ok (b.drop k) else .error .runtimePanic

/-- `parseDims` from `server.go`:
`w := binary.BigEndian.Uint32(b); h := binary.BigEndian.Uint32(b[4:])`.
A buffer shorter than 8 bytes makes one of the two reads panic. -/
def parseDims (b : List Nat) : Except GoAbort (Nat × Nat) :=
  match beUint32 b with
  | .error a => .error a
  | .ok w =>
    match beUint32 (b.drop 4) with
    | .error a => .error a
    | .ok h => .ok (w, h)

/-- `parseCommand` from `server.go`:
`l := int(binary.BigEndian.Uint32(b)); cmd := string(b[4:]);
if len(cmd) != l { log.Fatalf(...) }; return cmd`.
The command is kept as its byte list.  A buffer shorter than 4 bytes
panics inside `Uint32`; a length mismatch calls `log.Fatalf`, which
terminates the whole server process. -/
def parseCommand (b : List Nat) : Except GoAbort (List Nat) :=
  match beUint32 b with
  | .error a => .error a
  | .ok l =>
    let cmd := b.drop 4
    if cmd.length ≠ l then .error .fatalExit else .ok cmd

/-- The pty-req dimension decoding from `handleChannel` (`server.go`):
`termLen := req.Payload[3]; w, h := parseDims(req.Payload[termLen+4:])`.
`termLen` is a single byte, so `termLen+4` is computed in 8-bit
arithmetic (modulo 256).  `req.Payload[3]` panics when the payload has
fewer than 4 bytes, and the slice panics when `termLen+4` exceeds the
payload length. -/
def ptyReqDims (payload : List Nat) : Except GoAbort (Nat × Nat) :=
  match payload[3]? with
  | none => .error .runtimePanic
  | some termLen =>
    match sliceFrom payload ((termLen + 4) % 256) with
    | .error a => .error a
    | .ok rest => parseDims rest

/-- `ShellFile` from `sshd_posix.go`: wraps the pty master `*os.File`.
`id` models the identity of the underlying file (which pty it is);
`width`/`height` model the terminal size last applied to that pty via
the `TIOCSWINSZ` ioctl (the `winsize` struct holds `uint16` fields). -/
structure ShellFile where
  id : Nat
  width : Nat
  height : Nat
deriving DecidableEq

/-- `ShellFile.setWinsize` from `sshd_posix.go`:
`ws := &winsize{Width: uint16(w), Height: uint16(h)}` followed by the
`TIOCSWINSZ` ioctl on `sf.file.Fd()`.  The Go conversions `uint16(w)`,
`uint16(h)` truncate modulo 2^16.  When the receiver `sf` is a nil
`*ShellFile` (no shell bound yet), `sf.file` is a nil pointer
dereference: a runtime panic. -/
def setWinsize (sf : Option ShellFile) (w h : Nat) : Except GoAbort ShellFile :=
  match sf with
  | none => .error .runtimePanic
  | some f => .ok { f with width := w % 65536, height := h % 65536 }

/-- An out-of-band request on a session channel: `req.Type` and
`req.Payload` from `ssh.Request`. -/
structure Request where
  rtype : String
  payload : List Nat
deriving DecidableEq

/-- Observable actions of one request-handling step: a reply sent on the
request (`req.Reply(ok, nil)`), a process spawned by the exec path
(`exec.Command(shellPath, "-c", cmd)` + `Start`), or an interactive
shell started on a fresh pty (`startShell`). -/
inductive Event where
  | reply (ok : Bool)
  | spawnExec (cmd : List Nat)
  | spawnShell (id : Nat)
deriving DecidableEq

/-- The per-channel state of the request goroutine in `handleChannel`:
`shellf` is the local `var shellf *ShellFile` (none = nil); `procs`
lists the ids of child processes started on this channel and not yet
reaped (starting a new one never kills a previous one); `nextId` is a
fresh-id supply for new processes/ptys. -/
structure SessState where
  shellf : Option ShellFile
  procs : List Nat
  nextId : Nat
deriving DecidableEq

deriving instance DecidableEq for Except

/-- Result of handling one request: the events emitted before the step
finished, and either the next session state or the abort that killed
the process.  Events that were emitted before an abort are kept (e.g.
the exec path replies success before parsing the command). -/
structure StepResult where
  events : List Event
  outcome : Except GoAbort SessState
deriving DecidableEq

/-- The request dispatch switch of the per-channel goroutine in
`handleChannel` (`server.go`), one request at a time.

* `exec`: replies success first, then `parseCommand(req.Payload)`, then
  spawns `shellPath -c cmd` with stdin/stdout pipes.  Pipe or start
  failures (environment conditions, not payload-determined) are not
  modelled: a spawn is recorded as succeeding.
* `shell`: only when the payload is empty, replies success and rebinds
  `shellf` to a fresh pty-backed shell via `startShell`; a non-empty
  payload falls through the `if` with no reply and no state change.
  There is no check that a process is already bound.
* `pty-req`: decodes dimensions via `ptyReqDims`, applies
  `shellf.setWinsize`, and only then replies success.
* `window-change`: decodes via `parseDims`, applies `shellf.setWinsize`,
  and sends no reply.
* any other request type is ignored (left unacknowledged). -/
def handleRequest (st : SessState) (req : Request) : StepResult :=
  if req.rtype = "exec" then
    match parseCommand req.payload with
    | .error a => { events := [.reply true], outcome := .error a }
    | .ok cmd =>
      { events := [.reply true, .spawnExec cmd]
        outcome := .ok { st with procs := st.nextId :: st.procs, nextId := st.nextId + 1 } }
  else if req.rtype = "shell" then
    if req.payload = [] then
      { events := [.reply true, .spawnShell st.nextId]
        outcome := .ok { shellf := some { id := st.nextId, width := 0, height := 0 }
                         procs := st.nextId :: st.procs
                         nextId := st.nextId + 1 } }
    else
      { events := [], outcome := .ok st }
  else if req.rtype = "pty-req" then
    match ptyReqDims req.payload with
    | .error a => { events := [], outcome := .error a }
    | .ok (w, h) =>
      match setWinsize st.shellf w h with
      | .error a => { events := [], outcome := .error a }
      | .ok f => { events := [.reply true], outcome := .ok { st with shellf := some f } }
  else if req.rtype = "window-change" then
    match parseDims req.payload with
    | .error a => { events := [], outcome := .error a }
    | .ok (w, h) =>
      match setWinsize st.shellf w h with
      | .error a => { events := [], outcome := .error a }
      | .ok f => { events := [], outcome := .ok { st with shellf := some f } }
  else
    { events := [], outcome := .ok st }

/-- The channel state at the top of the request goroutine: `shellf` is
nil and no child process has been started. -/
def initSessState : SessState := { shellf := none, procs := [], nextId := 0 }

/-- Big-endian 4-byte encoding of a 32-bit unsigned integer.
Modelled from the spec: the wire sub-protocol table says all payload
integers are big-endian 32-bit unsigned; the encoder lives on the
client side and is not part of this repository's sources. -/
def encodeBE32 (n : Nat) : List Nat :=
  [n / 16777216 % 256, n / 65536 % 256, n / 256 % 256, n % 256]

/-- Modelled from the spec: the Dimension Codec encoding of a
window-change payload, `[width:4][height:4]`, both big-endian 32-bit
unsigned.  The repository only contains the decoder (`parseDims`). -/
def encodeDims (w h : Nat) : List Nat :=
  encodeBE32 w ++ encodeBE32 h

/-- State of the `var once sync.Once` used by the two pipe-pump
goroutines of a session (`server.go` exec path and
`Server.startShell` in `sshd_posix.go`): `done` is the Once's fired
flag, `runs` counts how many times the teardown closure (`close`:
close the channel, wait on the child, send `exit-status`, log) has
actually executed. -/
structure OnceState where
  done : Bool
  runs : Nat
deriving DecidableEq

/-- `once.Do(close)`: `sync.Once` serializes concurrent `Do` calls
through an internal mutex and runs the function exactly when the Once
has not fired yet.  Because the calls are serialized, any concurrent
execution of the two pump goroutines is equivalent to some sequential
order of their `Do` calls, so quantifying over call sequences covers
every interleaving. -/
def onceDo (s : OnceState) : OnceState :=
  if s.done then s else { done := true, runs := s.runs + 1 }

/-- A fresh `sync.Once`: not fired, teardown never run. -/
def onceInit : OnceState := { done := false, runs := 0 }

/-- A pump direction of a session: `io.Copy(connection, out)`
(process to channel) or `io.Copy(in, connection)` (channel to
process).  Each goroutine calls `once.Do(close)` when its copy
returns. -/
inductive PumpDir where
  | outbound
  | inbound
deriving DecidableEq

/-- Run the teardown triggers fired by a sequence of terminating pump
directions: each termination calls `once.Do(close)`. -/
def runTriggers (dirs : List PumpDir) : OnceState :=
  dirs.foldl (fun s _ => onceDo s) onceInit

/-- The value `err.(*exec.ExitError).Sys()` can take in the teardown
closure: a `syscall.WaitStatus` carrying the numeric exit status, or
some other type (an unrecognized platform form). -/
inductive SysInfo where
  | waitStatus (code : Int)
  | other
deriving DecidableEq

/-- Outcome of `shell.Wait()` in the teardown closure: `success`
(`err == nil`), an `*exec.ExitError` with its `Sys()` value, or some
other non-ExitError error. -/
inductive WaitResult where
  | success
  | exitError (sys : SysInfo)
  | otherError
deriving DecidableEq

/-- Go's `int32(x)` conversion of an `int`: wrap into
`[-2^31, 2^31)`. -/
def wrapInt32 (c : Int) : Int :=
  (c + 2147483648) % 4294967296 - 2147483648

/-- The exit-status computation of the teardown closure in
`handleChannel` (`server.go`, also duplicated in `sshd_posix.go`):
`var exitStatus int32` starts at 0; a non-nil error that is an
`*exec.ExitError` whose `Sys()` is a `syscall.WaitStatus` sets
`exitStatus = int32(s.ExitStatus())`; an `*exec.ExitError` whose
`Sys()` is anything else hits
`panic(errors.New("Unimplemented for system where exec.ExitError.Sys() is not syscall.WaitStatus."))`;
any other error (or no error) leaves the default 0.  The resulting
value is sent as the `exit-status` out-of-band message. -/
def exitStatusOf (r : WaitResult) : Except GoAbort Int :=
  match r with
  | .success => .ok 0
  | .otherError => .ok 0
  | .exitError (.waitStatus c) => .ok (wrapInt32 c)
  | .exitError .other => .error .runtimePanic

/-- The `Server` struct from `server.go`, restricted to the mutable
lifecycle state the serve loop consults: the mutex-guarded `closed`
flag.  (`shellPath`, `config`, `logger` and `listener` are external
handles that the accept-loop claims do not depend on.) -/
structure Server where
  closed : Bool
deriving DecidableEq

/-- `Server.Close` from `server.go`: takes the mutex, sets
`closed = true`, releases the mutex, and then closes the listener
(the listener close is an external effect and makes any blocked
`Accept` return an error). -/
def Server.CloseServer (s : Server) : Server :=
  { s with closed := true }

/-- The accept-error branch of `Server.Serve` (`server.go`): when
`l.Accept()` returns an error, `Serve` returns `nil` if
`s.isClosed()` reports the server as stopped, and otherwise returns
`fmt.Errorf("Failed to accept incoming connection (%s)", err)`.
`none` models a nil error return. -/
def serveOnAcceptFailure (s : Server) (acceptErr : String) : Option String :=
  if s.closed then none
  else some ("Failed to accept incoming connection (" ++ acceptErr ++ ")")

/-- Reading the first four bytes of an encoded 32-bit integer recovers
the integer, whatever follows. -/
theorem beUint32_encodeBE32 (n : Nat) (rest : List Nat) (h : n < 4294967296) :
    beUint32 (encodeBE32 n ++ rest) = .ok n := by
  simp [encodeBE32, beUint32]
  omega

/-- `parseDims` inverts `encodeDims` on any payload that starts with the
eight encoded bytes; trailing bytes are ignored. -/
theorem parseDims_encodeDims (w h : Nat) (rest : List Nat)
    (hw : w < 4294967296) (hh : h < 4294967296) :
    parseDims (encodeDims w h ++ rest) = .ok (w, h) := by
  have h1 : beUint32 (encodeDims w h ++ rest) = .ok w := by
    rw [encodeDims, List.append_assoc]
    exact beUint32_encodeBE32 w _ hw
  have h2 : (encodeDims w h ++ rest).drop 4 = encodeBE32 h ++ rest := by
    rw [encodeDims, List.append_assoc]
    exact List.drop_left' rfl
  simp [parseDims, h1, h2, beUint32_encodeBE32 h rest hh]

/-- A well-formed exec payload decodes to exactly the original command
bytes. -/
theorem parseCommand_encode_ok (cmd : List Nat) (h : cmd.length < 4294967296) :
    parseCommand (encodeBE32 cmd.length ++ cmd) = .ok cmd := by
  have hd : (encodeBE32 cmd.length ++ cmd).drop 4 = cmd := List.drop_left' rfl
  simp [parseCommand, beUint32_encodeBE32 cmd.length cmd h, hd]

/-- An exec payload whose declared length differs from the actual
number of command bytes makes `parseCommand` hit `log.Fatalf`. -/
theorem parseCommand_encode_mismatch (l : Nat) (cmd : List Nat)
    (hl : l < 4294967296) (hne : cmd.length ≠ l) :
    parseCommand (encodeBE32 l ++ cmd) = .error .fatalExit := by
  have hd : (encodeBE32 l ++ cmd).drop 4 = cmd := List.drop_left' rfl
  simp [parseCommand, beUint32_encodeBE32 l cmd hl, hd, hne]

/-- Decoding a well-formed pty-req payload whose terminal name has at
most 251 bytes recovers the encoded dimensions: the one-byte
`termLen + 4` offset arithmetic does not wrap below 252. -/
theorem ptyReqDims_encode (name : List Nat) (w h : Nat) (rest : List Nat)
    (hL : name.length ≤ 251) (hw : w < 4294967296) (hh : h < 4294967296) :
    ptyReqDims (encodeBE32 name.length ++ (name ++ (encodeDims w h ++ rest))) = .ok (w, h) := by
  have h3 : (encodeBE32 name.length ++ (name ++ (encodeDims w h ++ rest)))[3]?
      = some name.length := by
    rw [List.getElem?_append_left (by simp [encodeBE32])]
    simp [encodeBE32]
    omega
  have h4 : (name.length + 4) % 256 = name.length + 4 := Nat.mod_eq_of_lt (by omega)
  have hlen : name.length + 4
      ≤ (encodeBE32 name.length ++ (name ++ (encodeDims w h ++ rest))).length := by
    simp [encodeBE32, encodeDims]
  have h6 : (encodeBE32 name.length ++ (name ++ (encodeDims w h ++ rest))).drop (name.length + 4)
      = encodeDims w h ++ rest := by
    rw [show name.length + 4 = (encodeBE32 name.length).length + name.length from by
      simp [encodeBE32]; omega]
    rw [List.drop_append]
    exact List.drop_left' rfl
  unfold ptyReqDims
  rw [h3]
  dsimp only
  rw [h4]
  unfold sliceFrom
  rw [if_pos hlen]
  dsimp only
  rw [h6]
  exact parseDims_encodeDims w h rest hw hh

/-- Once the `sync.Once` has fired, further teardown triggers leave its
state untouched. -/
theorem foldl_onceDo_fired (dirs : List PumpDir) (s : OnceState) (h : s.done = true) :
    dirs.foldl (fun s _ => onceDo s) s = s := by
  induction dirs with
  | nil => rfl
  | cons d ds ih =>
    rw [List.foldl_cons]
    rw [show onceDo s = s from by simp [onceDo, h]]
    exact ih

/-- Claim C9 (confirmed): encoding a pair of 32-bit unsigned integers as
the 8-byte big-endian window-change payload `[width:4][height:4]` and
decoding with `parseDims` recovers exactly the original pair, for every
payload of length at least 8; bytes beyond offset 8 are ignored. -/
theorem c9_round_trip (w h : Nat) (rest : List Nat)
    (hw : w < 4294967296) (hh : h < 4294967296) :
    parseDims (encodeDims w h ++ rest) = .ok (w, h) :=
  parseDims_encodeDims w h rest hw hh

/-- Witness for C9 at width 800, height 600, with three trailing bytes. -/
theorem c9_round_trip_witness :
    parseDims (encodeDims 800 600 ++ [1, 2, 3]) = .ok (800, 600) :=
  c9_round_trip 800 600 [1, 2, 3] (by decide) (by decide)

/-- Claim C3 (counterexample): an exec payload declaring length 5 but
carrying 3 command bytes makes `parseCommand` call `log.Fatalf`, which
terminates the whole server process — not an error scoped to the
request or channel. -/
theorem c3_counterexample :
    parseCommand [0, 0, 0, 5, 97, 98, 99] = .error .fatalExit ∧
    GoAbort.fatalExit ≠ GoAbort.runtimePanic := by
  decide

/-- Claim C3 (amended): when the declared 4-byte big-endian length
matches the actual command bytes, the decoded command equals the
original bytes; when it does not match, `parseCommand` reports the
mismatch via `log.Fatalf` and the whole server process exits. -/
theorem c3_amended :
    (∀ cmd : List Nat, cmd.length < 4294967296 →
        parseCommand (encodeBE32 cmd.length ++ cmd) = .ok cmd) ∧
    (∀ (l : Nat) (cmd : List Nat), l < 4294967296 → cmd.length ≠ l →
        parseCommand (encodeBE32 l ++ cmd) = .error .fatalExit) :=
  ⟨fun cmd h => parseCommand_encode_ok cmd h,
   fun l cmd hl hne => parseCommand_encode_mismatch l cmd hl hne⟩

/-- Witness for C3 (amended): command "hi" round-trips; declared
length 3 over 2 actual bytes exits fatally. -/
theorem c3_amended_witness :
    parseCommand (encodeBE32 2 ++ [104, 105]) = .ok [104, 105] ∧
    parseCommand (encodeBE32 3 ++ [104, 105]) = .error .fatalExit :=
  ⟨c3_amended.1 [104, 105] (by decide),
   c3_amended.2 3 [104, 105] (by decide) (by decide)⟩

set_option maxRecDepth 40000 in
/-- Claim C5 (counterexample): a well-formed pty-req payload with a
252-byte terminal name (termLen = 252, width 7, height 9).  The
one-byte offset arithmetic computes `(252 + 4) % 256 = 0`, so the
decoder re-reads the payload from offset 0 and returns (252, 0) — not
the encoded pair (7, 9) stored at offset 4 + 252. -/
theorem c5_counterexample :
    ptyReqDims (encodeBE32 252 ++ (List.replicate 252 0 ++ encodeDims 7 9)) = .ok (252, 0) ∧
    ((252, 0) : Nat × Nat) ≠ (7, 9) := by
  constructor
  · decide
  · decide

/-- Claim C5 (amended): for every well-formed pty-req payload whose
terminal name has at most 251 bytes, decoding skips the 4-byte length
prefix and the name and recovers exactly the encoded (width, height)
pair at offset 4 + termLen, including a zero-length name; for names of
252 bytes or more the one-byte `termLen + 4` offset arithmetic wraps
modulo 256 and the dimensions are read from the wrong offset. -/
theorem c5_amended (name : List Nat) (w h : Nat) (rest : List Nat)
    (hL : name.length ≤ 251) (hw : w < 4294967296) (hh : h < 4294967296) :
    ptyReqDims (encodeBE32 name.length ++ (name ++ (encodeDims w h ++ rest))) = .ok (w, h) :=
  ptyReqDims_encode name w h rest hL hw hh

/-- Witness for C5 (amended): an 5-byte terminal name "xterm" and a
zero-length name both decode to the encoded dimensions. -/
theorem c5_amended_witness :
    ptyReqDims (encodeBE32 5 ++ ([120, 116, 101, 114, 109] ++ (encodeDims 80 24 ++ [0]))) = .ok (80, 24) ∧
    ptyReqDims (encodeBE32 0 ++ ([] ++ (encodeDims 132 43 ++ []))) = .ok (132, 43) :=
  ⟨c5_amended [120, 116, 101, 114, 109] 80 24 [0] (by decide) (by decide) (by decide),
   c5_amended [] 132 43 [] (by decide) (by decide) (by decide)⟩

/-- Claim C1 (counterexample): starting from a fresh channel, a first
`shell` request with empty payload binds a running shell.  A second
`shell` request on the now-bound channel is *not* rejected: the
handler replies success again and rebinds `shellf` to a second freshly
started shell (the state changes).  A subsequent `exec` request is
likewise acknowledged with success and spawns another process. -/
theorem c1_counterexample :
    (handleRequest initSessState { rtype := "shell", payload := [] })
      = { events := [.reply true, .spawnShell 0],
          outcome := .ok { shellf := some { id := 0, width := 0, height := 0 },
                           procs := [0], nextId := 1 } } ∧
    (handleRequest { shellf := some { id := 0, width := 0, height := 0 },
                     procs := [0], nextId := 1 }
        { rtype := "shell", payload := [] })
      = { events := [.reply true, .spawnShell 1],
          outcome := .ok { shellf := some { id := 1, width := 0, height := 0 },
                           procs := [1, 0], nextId := 2 } } ∧
    (handleRequest { shellf := some { id := 0, width := 0, height := 0 },
                     procs := [0], nextId := 1 }
        { rtype := "exec", payload := [0, 0, 0, 2, 104, 105] })
      = { events := [.reply true, .spawnExec [104, 105]],
          outcome := .ok { shellf := some { id := 0, width := 0, height := 0 },
                           procs := [1, 0], nextId := 2 } } := by
  decide

/-- Claim C1 (amended): the handler keeps no bound/unbound state: on a
channel that already has a bound process, a subsequent `shell` request
with empty payload receives a success reply and rebinds `shellf` to a
newly started shell, and a subsequent well-formed `exec` request
receives a success reply and spawns an additional process; in both
cases every previously started process stays in the running set (the
first-bound process is not terminated). -/
theorem c1_amended (st : SessState) (f : ShellFile) (_hb : st.shellf = some f) :
    (handleRequest st { rtype := "shell", payload := [] }
      = { events := [.reply true, .spawnShell st.nextId],
          outcome := .ok { shellf := some { id := st.nextId, width := 0, height := 0 },
                           procs := st.nextId :: st.procs, nextId := st.nextId + 1 } }) ∧
    (∀ cmd : List Nat, cmd.length < 4294967296 →
      handleRequest st { rtype := "exec", payload := encodeBE32 cmd.length ++ cmd }
        = { events := [.reply true, .spawnExec cmd],
            outcome := .ok { st with procs := st.nextId :: st.procs, nextId := st.nextId + 1 } }) ∧
    (∀ p, p ∈ st.procs → p ∈ st.nextId :: st.procs) := by
  refine ⟨?_, ?_, ?_⟩
  · simp [handleRequest]
  · intro cmd hl
    simp [handleRequest, parseCommand_encode_ok cmd hl]
  · intro p hp
    exact List.mem_cons_of_mem _ hp

/-- Witness for C1 (amended) on a concretely bound channel. -/
theorem c1_amended_witness :
    (handleRequest { shellf := some { id := 0, width := 0, height := 0 },
                     procs := [0], nextId := 1 }
        { rtype := "shell", payload := [] }
      = { events := [.reply true, .spawnShell 1],
          outcome := .ok { shellf := some { id := 1, width := 0, height := 0 },
                           procs := [1, 0], nextId := 2 } }) ∧
    (handleRequest { shellf := some { id := 0, width := 0, height := 0 },
                     procs := [0], nextId := 1 }
        { rtype := "exec", payload := encodeBE32 2 ++ [104, 105] }
      = { events := [.reply true, .spawnExec [104, 105]],
          outcome := .ok { shellf := some { id := 0, width := 0, height := 0 },
                           procs := [1, 0], nextId := 2 } }) :=
  ⟨(c1_amended { shellf := some { id := 0, width := 0, height := 0 },
                 procs := [0], nextId := 1 } { id := 0, width := 0, height := 0 } rfl).1,
   (c1_amended { shellf := some { id := 0, width := 0, height := 0 },
                 procs := [0], nextId := 1 } { id := 0, width := 0, height := 0 } rfl).2.1
      [104, 105] (by decide)⟩

/-- Claim C2 (code bug): a `pty-req` or `window-change` request that
arrives while `shellf` is still nil (no `shell`/`exec` bound yet) is
not a harmless no-op: `shellf.setWinsize` dereferences the nil
`*ShellFile` (`sf.file`) and panics, killing the whole process, and
for `pty-req` no success reply is ever sent (the reply comes after the
panicking call).  Both payloads here are well-formed. -/
theorem c2_bug :
    handleRequest initSessState
        { rtype := "pty-req", payload := [0, 0, 0, 0, 0, 0, 0, 80, 0, 0, 0, 24] }
      = { events := [], outcome := .error .runtimePanic } ∧
    handleRequest initSessState
        { rtype := "window-change", payload := [0, 0, 0, 80, 0, 0, 0, 24] }
      = { events := [], outcome := .error .runtimePanic } := by
  decide

/-- Claim C4 (code bug): payloads shorter than the minimum their
request type requires are not failed gracefully with a log: decoding
runs past the available bytes and raises an index-out-of-range /
slice-bounds runtime panic that kills the whole process.  Shown for a
7-byte `window-change` payload, a 3-byte `pty-req` payload, a
truncated `pty-req` payload shorter than `4 + termLen + 8`, and a
3-byte `exec` payload — even on a channel with a bound shell. -/
theorem c4_bug :
    parseDims [0, 0, 0, 80, 0, 0, 0] = .error .runtimePanic ∧
    handleRequest { shellf := some { id := 0, width := 0, height := 0 },
                    procs := [0], nextId := 1 }
        { rtype := "window-change", payload := [0, 0, 0, 80, 0, 0, 0] }
      = { events := [], outcome := .error .runtimePanic } ∧
    ptyReqDims [0, 0, 0] = .error .runtimePanic ∧
    handleRequest { shellf := some { id := 0, width := 0, height := 0 },
                    procs := [0], nextId := 1 }
        { rtype := "pty-req", payload := [0, 0, 0, 9, 0, 0] }
      = { events := [], outcome := .error .runtimePanic } ∧
    parseCommand [0, 0, 1] = .error .runtimePanic := by
  decide

/-- Claim C6 (confirmed): both pipe-pump directions call
`once.Do(close)` when they terminate; whatever non-empty sequence of
trigger calls the two directions produce (sync.Once serializes
concurrent calls, so every interleaving is some sequence), the
teardown closure runs exactly once and the Once ends fired. -/
theorem c6_teardown_once (dirs : List PumpDir) (h : dirs ≠ []) :
    (runTriggers dirs).runs = 1 ∧ (runTriggers dirs).done = true := by
  match dirs with
  | [] => exact absurd rfl h
  | d :: ds =>
    rw [runTriggers, List.foldl_cons]
    rw [show onceDo onceInit = { done := true, runs := 1 } from rfl]
    rw [foldl_onceDo_fired ds { done := true, runs := 1 } rfl]
    exact ⟨rfl, rfl⟩

/-- Witness for C6: both directions terminating (outbound first, then
inbound) runs teardown exactly once. -/
theorem c6_teardown_once_witness :
    (runTriggers [PumpDir.outbound, PumpDir.inbound]).runs = 1 ∧
    (runTriggers [PumpDir.outbound, PumpDir.inbound]).done = true :=
  c6_teardown_once [PumpDir.outbound, PumpDir.inbound] (by decide)

/-- Claim C7 (code bug): when `shell.Wait()` returns an
`*exec.ExitError` whose `Sys()` is not a `syscall.WaitStatus` (the
termination information is not in the recognized platform form), the
teardown closure panics instead of defaulting the exit status to 0; a
non-ExitError wait failure does default to 0, and a normal non-zero
exit is reported as its exit code, not as an error. -/
theorem c7_bug :
    exitStatusOf (.exitError .other) = .error .runtimePanic ∧
    exitStatusOf (.exitError (.waitStatus 3)) = .ok 3 ∧
    exitStatusOf .otherError = .ok 0 ∧
    exitStatusOf .success = .ok 0 := by
  decide

/-- Claim C8 (confirmed): once `Close` has set the server's `closed`
flag, an accept failure makes the serve loop return `nil`; an accept
failure on a server that has not been stopped returns the wrapped
non-nil accept error. -/
theorem c8_serve_close (s : Server) (e : String) :
    serveOnAcceptFailure (Server.CloseServer s) e = none ∧
    (s.closed = false →
      serveOnAcceptFailure s e
        = some ("Failed to accept incoming connection (" ++ e ++ ")")) := by
  constructor
  · simp [serveOnAcceptFailure, Server.CloseServer]
  · intro h
    simp [serveOnAcceptFailure, h]

/-- Witness for C8: a stopped server swallows the accept error; a
running server propagates it. -/
theorem c8_serve_close_witness :
    serveOnAcceptFailure (Server.CloseServer { closed := false })
        "use of closed network connection" = none ∧
    serveOnAcceptFailure { closed := false } "connection reset"
      = some ("Failed to accept incoming connection (" ++ "connection reset" ++ ")") :=
  ⟨(c8_serve_close { closed := false } "use of closed network connection").1,
   (c8_serve_close { closed := false } "connection reset").2 rfl⟩

/-- Claim C10 (confirmed): `setWinsize` applies `uint16(w)` and
`uint16(h)`, i.e. the requested 32-bit dimensions reduced modulo 2^16,
to the pty; any requested dimension of 65536 or more therefore wraps
instead of being applied exactly or rejected. -/
theorem c10_winsize_wrap (f : ShellFile) (w h : Nat)
    (hw : w < 4294967296) (hh : h < 4294967296) :
    setWinsize (some f) w h = .ok { f with width := w % 65536, height := h % 65536 } ∧
    (65536 ≤ w → w % 65536 ≠ w) ∧
    (65536 ≤ h → h % 65536 ≠ h) := by
  refine ⟨rfl, ?_, ?_⟩
  · intro hge
    omega
  · intro hge
    omega

/-- Witness for C10: a requested width of 70000 is applied as
70000 mod 65536 = 4464. -/
theorem c10_winsize_wrap_witness :
    setWinsize (some { id := 0, width := 0, height := 0 }) 70000 24
      = .ok { id := 0, width := 70000 % 65536, height := 24 % 65536 } ∧
    70000 % 65536 ≠ 70000 :=
  ⟨(c10_winsize_wrap { id := 0, width := 0, height := 0 } 70000 24
      (by decide) (by decide)).1,
   (c10_winsize_wrap { id := 0, width := 0, height := 0 } 70000 24
      (by decide) (by decide)).2.1 (by decide)⟩
